import Mathlib

/-!
# Verification of the Sentinel_NDWI repository's core numeric logic

Shallow embedding of the repository-authored logic of `src/stac_downloader.py`,
`src/simple_main.py` and `src/simple_config.py`:

* the NDWI engine `STACDownloader.calculate_ndwi`,
* the statistics engine `STACDownloader.analyze_ndwi`,
* the bounding-box arithmetic of `STACDownloader.download_band_subset`,
* the scene-selection step of `STACDownloader.download_and_calculate_ndwi`,
* the coordinate validation loop of `use_custom_coordinates`.

Numeric samples are modelled as exact rationals (the idealisation of the
float32 arithmetic the code performs), and IEEE non-finite results (NaN,
positive and negative infinity) are modelled explicitly by the `FV` type so
that "every output value is finite" and "filter to finite values" are
substantive statements rather than vacuities.  2-D numpy arrays are modelled
as rectangular lists of lists; numpy's elementwise broadcasting semantics for
two 2-D operands is embedded faithfully (a length-1 axis stretches to the
other operand's extent, incompatible extents raise).
-/

set_option autoImplicit false

universe u v

/-- A float sample as the statistics engine sees it: either a finite value
(modelled exactly as a rational) or one of the IEEE non-finite values. -/
inductive FV where
  | fin (q : ℚ)
  | nan
  | inf
  | ninf
deriving DecidableEq, Repr

/-- IEEE division of two finite floats, idealised over ℚ: a nonzero
denominator gives the exact quotient, a zero denominator gives NaN (0/0)
or a signed infinity (x/0, x ≠ 0), exactly as numpy float division does. -/
def fdiv (a b : ℚ) : FV :=
  if b ≠ 0 then FV.fin (a / b)
  else if a = 0 then FV.nan
  else if 0 < a then FV.inf
  else FV.ninf

/-- `True` exactly on finite samples: the model of `np.isfinite`. -/
def FV.isFinite : FV → Bool
  | FV.fin _ => true
  | _ => false

/-- Number of rows of a 2-D grid (numpy `shape[0]`). -/
def nrows {α : Type u} (g : List (List α)) : Nat := g.length

/-- Number of columns of a 2-D grid (numpy `shape[1]`); numpy arrays are
rectangular, so the first row's length is the column count. -/
def ncols {α : Type u} (g : List (List α)) : Nat := (g.headD []).length

/-- Rectangularity: every row has the common column count.  numpy 2-D arrays
satisfy this by construction; it delimits the lists of lists that represent
actual arrays. -/
def rect {α : Type u} (g : List (List α)) : Bool :=
  g.all (fun r => r.length = ncols g)

/-- numpy broadcasting of one axis: equal extents agree, a length-1 axis
stretches to the other extent, anything else is incompatible. -/
def bdim (a b : Nat) : Option Nat :=
  if a = b then some a
  else if a = 1 then some b
  else if b = 1 then some a
  else none

/-- Element lookup used by a broadcast elementwise operation: an axis of
extent 1 always reads index 0. -/
def bget (g : List (List ℚ)) (i j : Nat) : ℚ :=
  (g.getD (if nrows g = 1 then 0 else i) []).getD (if ncols g = 1 then 0 else j) 0

/-- Elementwise combination of two 2-D arrays under numpy broadcasting:
succeeds with the broadcast-shaped result grid, or fails the way numpy
raises on incompatible shapes. -/
def binop2 (f : ℚ → ℚ → FV) (a b : List (List ℚ)) :
    Except String (List (List FV)) :=
  match bdim (nrows a) (nrows b), bdim (ncols a) (ncols b) with
  | some r, some c =>
      Except.ok ((List.range r).map fun i =>
        (List.range c).map fun j => f (bget a i j) (bget b i j))
  | _, _ => Except.error "operands could not be broadcast together"

/-- One pixel of `ndwi = np.where(denominator != 0, (green - nir) / denominator, 0)`:
where the denominator is nonzero the (possibly non-finite) float quotient is
taken, elsewhere the literal 0. -/
def ndwiPixel (g n : ℚ) : FV :=
  if g + n ≠ 0 then fdiv (g - n) (g + n) else FV.fin 0

/-- `STACDownloader.calculate_ndwi`, numeric core (src/stac_downloader.py,
lines 129-134): `denominator = green_data + nir_data;
ndwi = np.where(denominator != 0, (green_data - nir_data) / denominator, 0)`.
All involved numpy operations are elementwise over the broadcast pair of the
two input arrays; the source contains no shape validation of its own, so the
behaviour on differing shapes is exactly numpy's broadcasting. -/
def calculate_ndwi (green nir : List (List ℚ)) :
    Except String (List (List FV)) :=
  binop2 ndwiPixel green nir

/-- The finite samples of an NDWI grid in row-major order: the model of
`valid_data = ndwi_data[np.isfinite(ndwi_data)]`. -/
def validData (g : List (List FV)) : List ℚ :=
  g.flatten.filterMap fun v =>
    match v with
    | FV.fin q => some q
    | _ => none

/-- `np.min` over a nonempty sample list (0 is never reached: the statistics
engine only calls this on a nonempty list). -/
def listMin (l : List ℚ) : ℚ :=
  match l with
  | [] => 0
  | x :: xs => xs.foldl min x

/-- `np.max` over a nonempty sample list. -/
def listMax (l : List ℚ) : ℚ :=
  match l with
  | [] => 0
  | x :: xs => xs.foldl max x

/-- The statistics record built by `STACDownloader.analyze_ndwi`.  `np.std`
is the square root of the population variance; the square root of a rational
is irrational in general, so the record carries the variance `stdSq`
(= std²) exactly instead of the rounded root — no claim refers to std. -/
structure NdwiStats where
  count : Nat
  mean : ℚ
  stdSq : ℚ
  min : ℚ
  max : ℚ
  water_percentage : ℚ
  water_pixels : Nat
  total_pixels : Nat
deriving DecidableEq, Repr

/-- The statistics computed over a nonempty valid-sample list
(src/stac_downloader.py, lines 222-236): water pixels are the samples
strictly greater than 0, `water_percentage = (water_pixels / total_pixels) * 100`,
and mean/std/min/max are the numpy reductions over the valid samples. -/
def mkStats (valid : List ℚ) : NdwiStats :=
  let water_pixels := (valid.filter fun q => decide (0 < q)).length
  let total_pixels := valid.length
  let m := valid.sum / (total_pixels : ℚ)
  { count := valid.length
    mean := m
    stdSq := ((valid.map fun q => (q - m) ^ 2).sum) / (total_pixels : ℚ)
    min := listMin valid
    max := listMax valid
    water_percentage := ((water_pixels : ℚ) / (total_pixels : ℚ)) * 100
    water_pixels := water_pixels
    total_pixels := total_pixels }

/-- `STACDownloader.analyze_ndwi` (src/stac_downloader.py, lines 210-238):
filter to finite samples; with zero valid samples return the explicit
`{"error": "No valid data found"}` record instead of any statistics,
otherwise return the statistics record. -/
def analyze_ndwi (g : List (List FV)) : Except String NdwiStats :=
  let valid := validData g
  if valid.length = 0 then Except.error "No valid data found"
  else Except.ok (mkStats valid)

/-- State-passing form of `analyze_ndwi`: every numpy operation the source
performs on the opened raster (`np.isfinite` mask, boolean indexing — which
copies — and the reductions) is read-only, so the grid component of the
state is threaded through unchanged. -/
def analyze_ndwi_st (g : List (List FV)) :
    List (List FV) × Except String NdwiStats :=
  (g, analyze_ndwi g)

/-- Bounding-box arithmetic of `STACDownloader.download_band_subset`
(src/stac_downloader.py, lines 77-82): `buffer_deg = buffer_km / 111.0`,
then `(minx, miny, maxx, maxy) = (lon - buffer_deg, lat - buffer_deg,
lon + buffer_deg, lat + buffer_deg)`. -/
def bbox_of (lon lat buffer_km : ℚ) : ℚ × ℚ × ℚ × ℚ :=
  let buffer_deg := buffer_km / 111
  (lon - buffer_deg, lat - buffer_deg, lon + buffer_deg, lat + buffer_deg)

/-- A STAC scene record, reduced to the asset locations the workflow reads
from it: the green (B03), NIR (B08) and visual band hrefs. -/
structure SceneItem where
  green_href : String
  nir_href : String
  visual_href : String
deriving DecidableEq, Repr

/-- `STACDownloader.get_ndwi_bands`: the green and NIR asset URLs of a scene. -/
def get_ndwi_bands (item : SceneItem) : String × String :=
  (item.green_href, item.nir_href)

/-- Scene selection and band routing of
`STACDownloader.download_and_calculate_ndwi` (src/stac_downloader.py,
lines 170-177 and onward): with an empty search result it raises
`ValueError("No Sentinel-2 data found for the specified criteria")` and
performs no retry; otherwise `item = items[0]` and every subsequent band
extraction (green, NIR, visual) reads that single item's assets.  The
actual network downloads and file writes are external collaborators; the
model returns the triple of asset URLs handed to them. -/
def download_and_calculate_ndwi (items : List SceneItem) :
    Except String (String × String × String) :=
  match items with
  | [] => Except.error "No Sentinel-2 data found for the specified criteria"
  | item :: _ =>
      let gn := get_ndwi_bands item
      Except.ok (gn.1, gn.2, item.visual_href)

/-- Outcome of one pass of the `use_custom_coordinates` input loop:
either print a message and re-prompt (`continue` / the except-branches), or
leave the loop and run the analysis with the accepted coordinates. -/
inductive PromptOutcome where
  | reprompt (msg : String)
  | run (lat lon : ℚ)
deriving DecidableEq, Repr

/-- One iteration of the validation loop in `use_custom_coordinates`
(src/simple_main.py, lines 92-114).  `none` models input on which
`float(...)`/`split` raised (malformed input); a parsed pair is range
checked: `-90 <= lat <= 90` then `-180 <= lon <= 180`, any failure prints
and re-prompts, success breaks out and runs the analysis. -/
def coordinate_prompt_step (input : Option (ℚ × ℚ)) : PromptOutcome :=
  match input with
  | none => PromptOutcome.reprompt "Invalid format. Please use: latitude, longitude"
  | some (lat, lon) =>
      if ¬ (-90 ≤ lat ∧ lat ≤ 90) then
        PromptOutcome.reprompt "Latitude must be between -90 and 90 degrees"
      else if ¬ (-180 ≤ lon ∧ lon ≤ 180) then
        PromptOutcome.reprompt "Longitude must be between -180 and 180 degrees"
      else PromptOutcome.run lat lon

/-! ## Helper lemmas -/

/-- Unfolding `ndwiPixel` into the zero-denominator policy form. -/
theorem ndwiPixel_eq (g n : ℚ) :
    ndwiPixel g n = if g + n = 0 then FV.fin 0 else FV.fin ((g - n) / (g + n)) := by
  by_cases h : g + n = 0 <;> simp [ndwiPixel, fdiv, h]

/-- Every pixel the NDWI engine produces is a finite value. -/
theorem ndwiPixel_fin (g n : ℚ) : ∃ q, ndwiPixel g n = FV.fin q := by
  rw [ndwiPixel_eq]
  by_cases h : g + n = 0 <;> simp [h]

/-- Indexing a comprehension-style row or grid built by mapping over a range. -/
theorem getD_map_range {α : Type u} (f : Nat → α) (d : α) {r i : Nat} (h : i < r) :
    ((List.range r).map f).getD i d = f i := by
  simp [List.getD_eq_getElem?_getD, List.getElem?_map, List.getElem?_range h]

/-- Inside the common shape, broadcast lookup is plain row/column indexing. -/
theorem bget_eq (g : List (List ℚ)) {i j : Nat}
    (hi : i < nrows g) (hj : j < ncols g) :
    bget g i j = (g.getD i []).getD j 0 := by
  have h1 : (if nrows g = 1 then 0 else i) = i := by
    split_ifs with h
    · omega
    · rfl
  have h2 : (if ncols g = 1 then 0 else j) = j := by
    split_ifs with h
    · omega
    · rfl
  rw [bget, h1, h2]

/-- The grid `calculate_ndwi` builds on equal-shape inputs. -/
def ndwiGrid (a b : List (List ℚ)) : List (List FV) :=
  (List.range (nrows a)).map fun i =>
    (List.range (ncols a)).map fun j => ndwiPixel (bget a i j) (bget b i j)

/-- On equal-shape inputs broadcasting is trivial and `calculate_ndwi`
succeeds with the elementwise grid. -/
theorem calculate_ndwi_eq_ndwiGrid (a b : List (List ℚ))
    (hr : nrows a = nrows b) (hc : ncols a = ncols b) :
    calculate_ndwi a b = Except.ok (ndwiGrid a b) := by
  unfold calculate_ndwi binop2 ndwiGrid
  rw [← hr, ← hc]
  simp [bdim]

/-- The elementwise grid has the input's row count. -/
theorem ndwiGrid_nrows (a b : List (List ℚ)) : nrows (ndwiGrid a b) = nrows a := by
  simp [ndwiGrid, nrows]

/-- The elementwise grid has the input's column count. -/
theorem ndwiGrid_ncols (a b : List (List ℚ)) : ncols (ndwiGrid a b) = ncols a := by
  cases ha : a with
  | nil => simp [ndwiGrid, ncols, nrows, ha]
  | cons x xs =>
      simp [ndwiGrid, ncols, nrows, ha, List.range_succ_eq_map]

/-- The elementwise grid is rectangular. -/
theorem ndwiGrid_rect (a b : List (List ℚ)) : rect (ndwiGrid a b) = true := by
  rw [rect, List.all_eq_true]
  intro row hrow
  rw [ndwiGrid_ncols]
  rw [ndwiGrid, List.mem_map] at hrow
  obtain ⟨i, _, rfl⟩ := hrow
  simp

/-- Pixel formula of the elementwise grid inside the common shape. -/
theorem ndwiGrid_getD (a b : List (List ℚ))
    (hr : nrows a = nrows b) (hc : ncols a = ncols b)
    {i j : Nat} (hi : i < nrows a) (hj : j < ncols a) :
    ((ndwiGrid a b).getD i []).getD j FV.nan =
      ndwiPixel ((a.getD i []).getD j 0) ((b.getD i []).getD j 0) := by
  rw [ndwiGrid, getD_map_range _ _ hi, getD_map_range _ _ hj,
    bget_eq a hi hj, bget_eq b (hr ▸ hi) (hc ▸ hj)]

/-- A doubly-defaulted lookup into a grid of nonnegative samples is
nonnegative (the defaults are 0). -/
theorem getD_getD_nonneg (a : List (List ℚ))
    (h : ∀ row ∈ a, ∀ q ∈ row, 0 ≤ q) (i j : Nat) :
    0 ≤ (a.getD i []).getD j 0 := by
  rcases h1 : a[i]? with _ | row
  · simp [List.getD_eq_getElem?_getD, h1]
  · rcases h2 : row[j]? with _ | q
    · simp [List.getD_eq_getElem?_getD, h1, h2]
    · have hq : 0 ≤ q := h row (List.getElem?_mem h1) q (List.getElem?_mem h2)
      simp [List.getD_eq_getElem?_getD, h1, h2, hq]

/-- The NDWI quotient of nonnegative samples with nonzero denominator lies
in [-1, 1]. -/
theorem ndwi_quotient_bounds {g n : ℚ} (hg : 0 ≤ g) (hn : 0 ≤ n)
    (hd : g + n ≠ 0) : -1 ≤ (g - n) / (g + n) ∧ (g - n) / (g + n) ≤ 1 := by
  have hpos : 0 < g + n := lt_of_le_of_ne (by linarith) (Ne.symm hd)
  constructor
  · rw [le_div_iff₀ hpos]
    linarith
  · rw [div_le_one hpos]
    linarith

/-- A left `min` fold never exceeds its initial value. -/
theorem foldl_min_le_init : ∀ (xs : List ℚ) (x : ℚ), xs.foldl min x ≤ x := by
  intro xs
  induction xs with
  | nil => intro x; exact le_refl x
  | cons y ys ih =>
      intro x
      calc (y :: ys).foldl min x = ys.foldl min (min x y) := rfl
        _ ≤ min x y := ih (min x y)
        _ ≤ x := min_le_left x y

/-- A left `max` fold is at least its initial value. -/
theorem le_foldl_max_init : ∀ (xs : List ℚ) (x : ℚ), x ≤ xs.foldl max x := by
  intro xs
  induction xs with
  | nil => intro x; exact le_refl x
  | cons y ys ih =>
      intro x
      calc x ≤ max x y := le_max_left x y
        _ ≤ ys.foldl max (max x y) := ih (max x y)
        _ = (y :: ys).foldl max x := rfl

/-- Sum bound from below by the fold minimum. -/
theorem len_mul_foldl_min_le_sum :
    ∀ (xs : List ℚ) (x : ℚ),
      ((xs.length : ℚ) + 1) * (xs.foldl min x) ≤ x + xs.sum := by
  intro xs
  induction xs with
  | nil => intro x; simp
  | cons y ys ih =>
      intro x
      have h1 := ih (min x y)
      have h2 := foldl_min_le_init ys (min x y)
      have h3 : min x y ≤ x := min_le_left x y
      have h4 : min x y ≤ y := min_le_right x y
      have hfold : (y :: ys).foldl min x = ys.foldl min (min x y) := rfl
      have hlen : (((y :: ys).length : ℚ) + 1) = ((ys.length : ℚ) + 1) + 1 := by
        push_cast [List.length_cons]
        ring
      rw [hfold, hlen, List.sum_cons]
      have hexp : (((ys.length : ℚ) + 1) + 1) * ys.foldl min (min x y) =
          ((ys.length : ℚ) + 1) * ys.foldl min (min x y) + ys.foldl min (min x y) := by
        ring
      rw [hexp]
      linarith

/-- Sum bound from above by the fold maximum. -/
theorem sum_le_len_mul_foldl_max :
    ∀ (xs : List ℚ) (x : ℚ),
      x + xs.sum ≤ ((xs.length : ℚ) + 1) * (xs.foldl max x) := by
  intro xs
  induction xs with
  | nil => intro x; simp
  | cons y ys ih =>
      intro x
      have h1 := ih (max x y)
      have h2 := le_foldl_max_init ys (max x y)
      have h3 : x ≤ max x y := le_max_left x y
      have h4 : y ≤ max x y := le_max_right x y
      have hfold : (y :: ys).foldl max x = ys.foldl max (max x y) := rfl
      have hlen : (((y :: ys).length : ℚ) + 1) = ((ys.length : ℚ) + 1) + 1 := by
        push_cast [List.length_cons]
        ring
      rw [hfold, hlen, List.sum_cons]
      have hexp : (((ys.length : ℚ) + 1) + 1) * ys.foldl max (max x y) =
          ((ys.length : ℚ) + 1) * ys.foldl max (max x y) + ys.foldl max (max x y) := by
        ring
      rw [hexp]
      linarith

/-- On a nonempty sample list the minimum is at most the mean. -/
theorem listMin_le_mean (l : List ℚ) (h : l ≠ []) :
    listMin l ≤ l.sum / (l.length : ℚ) := by
  cases l with
  | nil => exact absurd rfl h
  | cons x xs =>
      have hpos : 0 < ((x :: xs).length : ℚ) := by
        simp [List.length_cons]
        positivity
      rw [le_div_iff₀ hpos]
      have := len_mul_foldl_min_le_sum xs x
      have hlen : ((x :: xs).length : ℚ) = (xs.length : ℚ) + 1 := by
        push_cast [List.length_cons]
        ring
      rw [listMin, hlen, List.sum_cons, mul_comm]
      linarith

/-- On a nonempty sample list the mean is at most the maximum. -/
theorem mean_le_listMax (l : List ℚ) (h : l ≠ []) :
    l.sum / (l.length : ℚ) ≤ listMax l := by
  cases l with
  | nil => exact absurd rfl h
  | cons x xs =>
      have hpos : 0 < ((x :: xs).length : ℚ) := by
        simp [List.length_cons]
        positivity
      rw [div_le_iff₀ hpos]
      have := sum_le_len_mul_foldl_max xs x
      have hlen : ((x :: xs).length : ℚ) = (xs.length : ℚ) + 1 := by
        push_cast [List.length_cons]
        ring
      rw [listMax, hlen, List.sum_cons, mul_comm]
      linarith

/-! ## Claim C1 -/

/-- The conclusion of claim C1 for a pair of grids: `calculate_ndwi`
succeeds, the output has the inputs' shape, every output value is finite,
and each pixel follows the zero-denominator policy exactly. -/
def NdwiShapeSpec (a b : List (List ℚ)) : Prop :=
  ∃ o, calculate_ndwi a b = Except.ok o ∧
    nrows o = nrows a ∧ ncols o = ncols a ∧ rect o = true ∧
    (∀ row ∈ o, ∀ v ∈ row, ∃ q, v = FV.fin q) ∧
    ∀ i j, i < nrows a → j < ncols a →
      ((a.getD i []).getD j 0 + (b.getD i []).getD j 0 = 0 →
        (o.getD i []).getD j FV.nan = FV.fin 0) ∧
      ((a.getD i []).getD j 0 + (b.getD i []).getD j 0 ≠ 0 →
        (o.getD i []).getD j FV.nan =
          FV.fin (((a.getD i []).getD j 0 - (b.getD i []).getD j 0) /
                  ((a.getD i []).getD j 0 + (b.getD i []).getD j 0)))

/-- Claim C1: on every pair of equal-shape numeric grids, `calculate_ndwi`
produces a grid of the same shape whose every value is finite; a pixel with
zero denominator is exactly 0 and every other pixel is
`(green - nir) / (green + nir)`. -/
theorem ndwi_shape_finite_spec (a b : List (List ℚ))
    (ha : rect a = true) (hb : rect b = true)
    (hr : nrows a = nrows b) (hc : ncols a = ncols b) :
    NdwiShapeSpec a b := by
  refine ⟨ndwiGrid a b, calculate_ndwi_eq_ndwiGrid a b hr hc,
    ndwiGrid_nrows a b, ndwiGrid_ncols a b, ndwiGrid_rect a b, ?_, ?_⟩
  · intro row hrow v hv
    rw [ndwiGrid, List.mem_map] at hrow
    obtain ⟨i, _, rfl⟩ := hrow
    rw [List.mem_map] at hv
    obtain ⟨j, _, rfl⟩ := hv
    exact ndwiPixel_fin _ _
  · intro i j hi hj
    rw [ndwiGrid_getD a b hr hc hi hj, ndwiPixel_eq]
    constructor
    · intro h0
      rw [if_pos h0]
    · intro h0
      rw [if_neg h0]

/-- Witness for C1 at a concrete pair of 1×2 grids exercising both the
zero-denominator pixel and the ordinary pixel. -/
theorem ndwi_shape_finite_witness : NdwiShapeSpec [[(0 : ℚ), 4]] [[(0 : ℚ), 2]] :=
  ndwi_shape_finite_spec [[(0 : ℚ), 4]] [[(0 : ℚ), 2]]
    (by decide) (by decide) (by decide) (by decide)

/-! ## Claim C2 -/

/-- The range conclusion of (amended) claim C2 for a pair of grids:
`calculate_ndwi` succeeds and each pixel is 0 where the denominator is 0
and a finite value in [-1, 1] elsewhere. -/
def NdwiRangeSpec (a b : List (List ℚ)) : Prop :=
  ∃ o, calculate_ndwi a b = Except.ok o ∧
    ∀ i j, i < nrows a → j < ncols a →
      ((a.getD i []).getD j 0 + (b.getD i []).getD j 0 = 0 →
        (o.getD i []).getD j FV.nan = FV.fin 0) ∧
      ((a.getD i []).getD j 0 + (b.getD i []).getD j 0 ≠ 0 →
        ∃ q, (o.getD i []).getD j FV.nan = FV.fin q ∧ -1 ≤ q ∧ q ≤ 1)

/-- Counterexample to claim C2 as stated: the finite-valued pair
green = [[1]], nir = [[-2]] has nonzero denominator -1 at its single pixel,
yet `calculate_ndwi` produces -3, which is outside [-1, 1]. -/
theorem ndwi_range_counterexample :
    calculate_ndwi [[(1 : ℚ)]] [[(-2 : ℚ)]] = Except.ok [[FV.fin (-3)]] ∧
    (1 : ℚ) + (-2) ≠ 0 ∧ ¬ (-1 ≤ (-3 : ℚ)) := by
  refine ⟨?_, by norm_num, by norm_num⟩
  simp [calculate_ndwi, binop2, bdim, bget, nrows, ncols, ndwiPixel, fdiv,
    List.range_succ]
  norm_num

/-- Claim C2 (amended: for co-registered grids of finite nonnegative
samples): every pixel of the NDWI grid with zero denominator is 0 and every
other pixel is a finite value in [-1, 1]. -/
theorem ndwi_range_spec (a b : List (List ℚ))
    (ha : rect a = true) (hb : rect b = true)
    (hr : nrows a = nrows b) (hc : ncols a = ncols b)
    (hag : ∀ row ∈ a, ∀ q ∈ row, 0 ≤ q)
    (hbg : ∀ row ∈ b, ∀ q ∈ row, 0 ≤ q) :
    NdwiRangeSpec a b := by
  refine ⟨ndwiGrid a b, calculate_ndwi_eq_ndwiGrid a b hr hc, ?_⟩
  intro i j hi hj
  rw [ndwiGrid_getD a b hr hc hi hj, ndwiPixel_eq]
  constructor
  · intro h0
    rw [if_pos h0]
  · intro h0
    rw [if_neg h0]
    refine ⟨_, rfl, ?_⟩
    exact ndwi_quotient_bounds (getD_getD_nonneg a hag i j)
      (getD_getD_nonneg b hbg i j) h0

/-- Witness for the amended C2 at a concrete pair of nonnegative grids. -/
theorem ndwi_range_witness : NdwiRangeSpec [[(0 : ℚ), 4]] [[(0 : ℚ), 2]] :=
  ndwi_range_spec [[(0 : ℚ), 4]] [[(0 : ℚ), 2]]
    (by decide) (by decide) (by decide) (by decide)
    (by intro row hrow q hq; simp at hrow; subst hrow; simp at hq; rcases hq with rfl | rfl <;> norm_num)
    (by intro row hrow q hq; simp at hrow; subst hrow; simp at hq; rcases hq with rfl | rfl <;> norm_num)

/-! ## Claim C3 -/

/-- Claim C3 fails on the code: `calculate_ndwi` contains no shape check at
all — there is no `ShapeMismatchError` anywhere in the repository — so on
the mismatched shapes 1×2 and 2×2 numpy silently broadcasts the single row
and the call succeeds with a 2×2 output instead of failing. -/
theorem ndwi_broadcast_code_bug :
    nrows [[(1 : ℚ), 2]] ≠ nrows [[(1 : ℚ), 2], [(3 : ℚ), 4]] ∧
    calculate_ndwi [[(1 : ℚ), 2]] [[(1 : ℚ), 2], [(3 : ℚ), 4]] =
      Except.ok [[FV.fin 0, FV.fin 0], [FV.fin (-1/2), FV.fin (-1/3)]] := by
  refine ⟨by decide, ?_⟩
  simp [calculate_ndwi, binop2, bdim, bget, nrows, ncols, ndwiPixel, fdiv,
    List.range_succ]
  norm_num

/-! ## Claim C4 -/

/-- Claim C4: with zero finite samples `analyze_ndwi` reports the explicit
"no valid data" condition and returns no statistics; with at least one
finite sample it returns the full statistics record. -/
theorem analyze_ndwi_no_valid_data_spec (g : List (List FV)) :
    ((validData g).length = 0 →
      analyze_ndwi g = Except.error "No valid data found") ∧
    ((validData g).length ≠ 0 → ∃ st, analyze_ndwi g = Except.ok st) := by
  constructor
  · intro h
    simp [analyze_ndwi, h]
  · intro h
    exact ⟨mkStats (validData g), by simp [analyze_ndwi, h]⟩

/-- Witness for C4: an all-non-finite grid reports "no valid data"; a grid
with one finite sample returns a statistics record. -/
theorem analyze_ndwi_no_valid_data_witness :
    analyze_ndwi [[FV.nan, FV.inf], [FV.ninf, FV.nan]] =
      Except.error "No valid data found" ∧
    ∃ st, analyze_ndwi [[FV.fin 1, FV.nan]] = Except.ok st :=
  ⟨(analyze_ndwi_no_valid_data_spec [[FV.nan, FV.inf], [FV.ninf, FV.nan]]).1
      (by decide),
   (analyze_ndwi_no_valid_data_spec [[FV.fin 1, FV.nan]]).2 (by decide)⟩

/-! ## Claim C5 -/

/-- Claim C5: on a grid with a nonempty set of finite samples, the record's
`water_pixels` counts the finite samples strictly greater than 0,
`total_pixels` counts all finite samples, and
`water_percentage = 100 * water_pixels / total_pixels` exactly. -/
theorem analyze_ndwi_water_stats_spec (g : List (List FV))
    (h : validData g ≠ []) :
    ∃ st, analyze_ndwi g = Except.ok st ∧
      st.water_pixels = ((validData g).filter fun q => decide (0 < q)).length ∧
      st.total_pixels = (validData g).length ∧
      st.water_percentage = 100 * (st.water_pixels : ℚ) / (st.total_pixels : ℚ) := by
  have hlen : (validData g).length ≠ 0 := fun hl => h (List.length_eq_zero.mp hl)
  refine ⟨mkStats (validData g), by simp [analyze_ndwi, hlen], rfl, rfl, ?_⟩
  show ((((validData g).filter fun q => decide (0 < q)).length : ℚ) /
      ((validData g).length : ℚ)) * 100 = _
  rw [mul_comm, mul_div_assoc]
  rfl

/-- Witness for C5 on a concrete grid with three finite samples, two of
them strictly positive. -/
theorem analyze_ndwi_water_stats_witness :
    ∃ st, analyze_ndwi [[FV.fin 1, FV.nan], [FV.fin (-1), FV.fin 2]] =
        Except.ok st ∧
      st.water_pixels =
        ((validData [[FV.fin 1, FV.nan], [FV.fin (-1), FV.fin 2]]).filter
          fun q => decide (0 < q)).length ∧
      st.total_pixels =
        (validData [[FV.fin 1, FV.nan], [FV.fin (-1), FV.fin 2]]).length ∧
      st.water_percentage =
        100 * (st.water_pixels : ℚ) / (st.total_pixels : ℚ) :=
  analyze_ndwi_water_stats_spec [[FV.fin 1, FV.nan], [FV.fin (-1), FV.fin 2]]
    (by simp [validData])

/-! ## Claim C9 -/

/-- Claim C9: the statistics pass leaves the input grid unchanged, and a
second run over the (unchanged) grid returns the same statistics record as
the first: the analysis is deterministic and mutation-free. -/
theorem analyze_ndwi_pure_spec (g : List (List FV)) :
    (analyze_ndwi_st g).1 = g ∧
    analyze_ndwi ((analyze_ndwi_st g).1) = (analyze_ndwi_st g).2 :=
  ⟨rfl, rfl⟩

/-! ## Claim C10 -/

/-- Claim C10: on a grid with a nonempty set of finite samples the returned
record satisfies the internal invariants: `count` equals `total_pixels`,
`water_pixels ≤ total_pixels`, the water percentage lies in [0, 100] and
`min ≤ mean ≤ max`. -/
theorem analyze_ndwi_invariants_spec (g : List (List FV))
    (h : validData g ≠ []) :
    ∃ st, analyze_ndwi g = Except.ok st ∧
      st.count = st.total_pixels ∧
      st.water_pixels ≤ st.total_pixels ∧
      0 ≤ st.water_percentage ∧ st.water_percentage ≤ 100 ∧
      st.min ≤ st.mean ∧ st.mean ≤ st.max := by
  have hlen : (validData g).length ≠ 0 := fun hl => h (List.length_eq_zero.mp hl)
  have hpos : 0 < ((validData g).length : ℚ) := by
    have : 0 < (validData g).length := Nat.pos_of_ne_zero hlen
    exact_mod_cast this
  refine ⟨mkStats (validData g), by simp [analyze_ndwi, hlen],
    rfl, List.length_filter_le _ _, ?_, ?_, ?_, ?_⟩
  · show 0 ≤ ((((validData g).filter fun q => decide (0 < q)).length : ℚ) /
        ((validData g).length : ℚ)) * 100
    positivity
  · show ((((validData g).filter fun q => decide (0 < q)).length : ℚ) /
        ((validData g).length : ℚ)) * 100 ≤ 100
    have hle : (((validData g).filter fun q => decide (0 < q)).length : ℚ) ≤
        ((validData g).length : ℚ) := by
      exact_mod_cast List.length_filter_le _ (validData g)
    have hdiv : (((validData g).filter fun q => decide (0 < q)).length : ℚ) /
        ((validData g).length : ℚ) ≤ 1 := (div_le_one hpos).mpr hle
    nlinarith
  · exact listMin_le_mean (validData g) h
  · exact mean_le_listMax (validData g) h

/-- Witness for C10 on the same concrete three-sample grid. -/
theorem analyze_ndwi_invariants_witness :
    ∃ st, analyze_ndwi [[FV.fin 1, FV.nan], [FV.fin (-1), FV.fin 2]] =
        Except.ok st ∧
      st.count = st.total_pixels ∧
      st.water_pixels ≤ st.total_pixels ∧
      0 ≤ st.water_percentage ∧ st.water_percentage ≤ 100 ∧
      st.min ≤ st.mean ∧ st.mean ≤ st.max :=
  analyze_ndwi_invariants_spec [[FV.fin 1, FV.nan], [FV.fin (-1), FV.fin 2]]
    (by simp [validData])

/-! ## Claim C6 -/

/-- Counterexample to claim C6 as stated: at buffer radius 0 km (quantified
over by the claim) the computed box is degenerate, `minX = maxX = lon`, so
the invariant `minX < maxX` fails. -/
theorem bbox_degenerate_counterexample :
    bbox_of 0 0 0 = (0, 0, 0, 0) ∧ ¬ ((0 : ℚ) < 0) := by
  constructor
  · simp [bbox_of]
  · norm_num

/-- Claim C6 (amended: for every strictly positive buffer radius): the box
uses the degree buffer `buffer_km / 111`, spans `2 * buffer_km / 111`
degrees in each axis around the center with `minX < maxX` and
`minY < maxY`, and at `buffer_km = 111` the degree buffer is exactly 1 and
the box spans exactly 2 degrees per axis. -/
theorem bbox_of_spec (lon lat bkm : ℚ) (h : 0 < bkm) :
    bbox_of lon lat bkm =
      (lon - bkm / 111, lat - bkm / 111, lon + bkm / 111, lat + bkm / 111) ∧
    (lon + bkm / 111) - (lon - bkm / 111) = 2 * (bkm / 111) ∧
    (lat + bkm / 111) - (lat - bkm / 111) = 2 * (bkm / 111) ∧
    lon - bkm / 111 < lon + bkm / 111 ∧
    lat - bkm / 111 < lat + bkm / 111 ∧
    bbox_of lon lat 111 = (lon - 1, lat - 1, lon + 1, lat + 1) := by
  have hd : 0 < bkm / 111 := by positivity
  refine ⟨rfl, by ring, by ring, by linarith, by linarith, ?_⟩
  simp only [bbox_of]
  norm_num

/-- Witness for the amended C6 at the 2 km radius both callers use. -/
theorem bbox_of_witness :
    bbox_of 0 0 2 = ((0 : ℚ) - 2 / 111, (0 : ℚ) - 2 / 111,
      (0 : ℚ) + 2 / 111, (0 : ℚ) + 2 / 111) ∧
    ((0 : ℚ) + 2 / 111) - ((0 : ℚ) - 2 / 111) = 2 * ((2 : ℚ) / 111) ∧
    ((0 : ℚ) + 2 / 111) - ((0 : ℚ) - 2 / 111) = 2 * ((2 : ℚ) / 111) ∧
    (0 : ℚ) - 2 / 111 < (0 : ℚ) + 2 / 111 ∧
    (0 : ℚ) - 2 / 111 < (0 : ℚ) + 2 / 111 ∧
    bbox_of 0 0 111 = ((0 : ℚ) - 1, (0 : ℚ) - 1, (0 : ℚ) + 1, (0 : ℚ) + 1) :=
  bbox_of_spec 0 0 2 (by norm_num)

/-! ## Claim C7 -/

/-- Claim C7: an empty catalog search result fails the workflow with the
"no data found" condition (and the function offers no retry path), and a
nonempty result routes exactly the first item's green, NIR and visual
assets to every subsequent band extraction. -/
theorem first_scene_selection_spec (items : List SceneItem) :
    (items = [] → download_and_calculate_ndwi items =
      Except.error "No Sentinel-2 data found for the specified criteria") ∧
    (∀ it rest, items = it :: rest → download_and_calculate_ndwi items =
      Except.ok (it.green_href, it.nir_href, it.visual_href)) := by
  constructor
  · rintro rfl
    rfl
  · rintro it rest rfl
    rfl

/-- Witness for C7 on an empty result and on a two-scene result whose first
scene's assets are the ones extracted. -/
theorem first_scene_selection_witness :
    download_and_calculate_ndwi [] =
      Except.error "No Sentinel-2 data found for the specified criteria" ∧
    download_and_calculate_ndwi
        [⟨"g1", "n1", "v1"⟩, ⟨"g2", "n2", "v2"⟩] =
      Except.ok ("g1", "n1", "v1") :=
  ⟨(first_scene_selection_spec []).1 rfl,
   (first_scene_selection_spec [⟨"g1", "n1", "v1"⟩, ⟨"g2", "n2", "v2"⟩]).2
     ⟨"g1", "n1", "v1"⟩ [⟨"g2", "n2", "v2"⟩] rfl⟩

/-! ## Claim C8 -/

/-- Claim C8: one pass of the custom-coordinate loop runs the analysis
exactly when the latitude lies in [-90, 90] and the longitude in
[-180, 180]; the coordinates (91, 0) and (0, 181) are rejected with a
re-prompt, (40.78, -73.97) is accepted, and malformed input re-prompts. -/
theorem coordinate_validation_spec :
    (∀ lat lon : ℚ,
      coordinate_prompt_step (some (lat, lon)) = PromptOutcome.run lat lon ↔
        ((-90 ≤ lat ∧ lat ≤ 90) ∧ (-180 ≤ lon ∧ lon ≤ 180))) ∧
    (∃ m, coordinate_prompt_step (some (91, 0)) = PromptOutcome.reprompt m) ∧
    (∃ m, coordinate_prompt_step (some (0, 181)) = PromptOutcome.reprompt m) ∧
    coordinate_prompt_step (some (2039 / 50, -7397 / 100)) =
      PromptOutcome.run (2039 / 50) (-7397 / 100) ∧
    (∃ m, coordinate_prompt_step none = PromptOutcome.reprompt m) := by
  refine ⟨?_, ?_, ?_, ?_, ?_⟩
  · intro lat lon
    simp only [coordinate_prompt_step]
    split_ifs with h1 h2
    · exact iff_of_true rfl ⟨h1, h2⟩
    · exact iff_of_false (by simp) (fun hcon => h2 hcon.2)
    · exact iff_of_false (by simp) (fun hcon => h1 hcon.1)
  · refine ⟨"Latitude must be between -90 and 90 degrees", ?_⟩
    simp only [coordinate_prompt_step]
    rw [if_pos]
    norm_num
  · refine ⟨"Longitude must be between -180 and 180 degrees", ?_⟩
    simp only [coordinate_prompt_step]
    rw [if_neg, if_pos]
    · norm_num
    · norm_num
  · simp only [coordinate_prompt_step]
    rw [if_neg, if_neg]
    · norm_num
    · norm_num
  · exact ⟨"Invalid format. Please use: latitude, longitude", rfl⟩

/-- Witness for C8: the acceptance criterion applied at a concrete
in-range coordinate. -/
theorem coordinate_validation_witness :
    coordinate_prompt_step (some (50, 100)) = PromptOutcome.run 50 100 :=
  (coordinate_validation_spec.1 50 100).mpr (by norm_num)
